import Mathlib

/-!
Verification of the Velox AI routing pipeline (`src/agents/pipeline.py`).

The pipeline routes one conversational request to one of three backends:
a local Phi-3-mini SLM sidecar ("Light"), Gemini 2.5 Flash ("Standard")
and Gemini 2.5 Pro ("Premium").  We give a shallow embedding of the
routing code: the outside world (the Phi-3 HTTP service and the two
Gemini agents) is an explicit environment value, and `run_pipeline`
returns the routed response (or the propagated exception), the sequence
of observable events (log lines, the HTTP POST, agent invocations) and
the elapsed wall-clock time in seconds, so that timeout behaviour is
expressible.
-/

namespace Velox

/-! ### Constants (`pipeline.py` lines 29-39, 68) -/

/-- Model alias `GEMINI_FLASH = "gemini-2.5-flash"`. -/
def GEMINI_FLASH : String := "gemini-2.5-flash"

/-- Model alias `GEMINI_PRO = "gemini-2.5-pro"`. -/
def GEMINI_PRO : String := "gemini-2.5-pro"

/-- Routing threshold `PHI3_MAX_WORDS = 15`. -/
def PHI3_MAX_WORDS : Nat := 15

/-- Routing threshold `FLASH_MAX_WORDS = 50`. -/
def FLASH_MAX_WORDS : Nat := 50

/-- The `timeout=8.0` (seconds) passed to `httpx.AsyncClient` in `_call_phi3`.
We measure time in whole seconds. -/
def PHI3_TIMEOUT : Nat := 8

/-! ### Data model (`pipeline.py` lines 42-54) -/

/-- The `PipelineRequest` dataclass. -/
structure PipelineRequest where
  user_message : String
  context : String := ""
  agent_id : String := ""
  conversation_id : String := ""
  call_sid : String := ""
  deriving Repr, DecidableEq

/-- The `PipelineResponse` dataclass. -/
structure PipelineResponse where
  response : String
  model_used : String
  deriving Repr, DecidableEq

/-! ### Word count (`pipeline.py` line 116) -/

/-- Split a character list at every whitespace character, keeping the
(possibly empty) pieces between separators. -/
def splitWS : List Char → List (List Char)
  | [] => [[]]
  | c :: cs =>
    match splitWS cs with
    | [] => [[]]
    | p :: ps => if c.isWhitespace then [] :: p :: ps else (c :: p) :: ps

/-- Python `s.split()` with no arguments: split on whitespace and drop
the empty pieces, so only the maximal whitespace-free runs remain. -/
def pySplit (s : String) : List (List Char) :=
  (splitWS s.toList).filter fun w => w ≠ []

/-- Line 116, `word_count = len(req.user_message.split())`. -/
def word_count (s : String) : Nat := (pySplit s).length

/-! ### Prompt composer (`pipeline.py` lines 148-156) -/

/-- The fixed persona policy `base` in `_build_system_prompt`. -/
def VELOX_BASE_PROMPT : String :=
  "You are Velox, a professional voice AI assistant. Keep answers concise — under two sentences. Do not use markdown formatting; your reply will be spoken aloud."

/-- Opening knowledge-base delimiter. -/
def KB_OPEN : String := "=== KNOWLEDGE BASE ==="

/-- Closing knowledge-base delimiter. -/
def KB_CLOSE : String := "======================"

/-- Function `_build_system_prompt(context)`: the persona policy, with the context
appended inside the knowledge-base delimiters when it is non-empty
(Python truthiness of a string is non-emptiness). -/
def build_system_prompt (context : String) : String :=
  let base := VELOX_BASE_PROMPT
  if context ≠ "" then
    base ++ "\n\n" ++ KB_OPEN ++ "\n" ++ context ++ "\n" ++ KB_CLOSE ++ "\n"
  else
    base

/-! ### Observable events

`pipeline.py` emits log lines via `logger` and performs one HTTP POST in
`_call_phi3` and one `agent.run_async` per Gemini dispatch.  We record
them as events so that claims about logging, network I/O and dispatch
order are statable. -/

/-- The exception that `_call_phi3`'s `except Exception` block catches and
logs (`logger.error("Phi-3 call failed: %s", exc)`): an `httpx` timeout,
another transport-level error, or the `HTTPStatusError` raised by
`resp.raise_for_status()` on a non-2xx status. -/
inductive Phi3Exc where
  | timeoutExc
  | transportExc
  | httpStatusExc (status : Nat)
  deriving Repr, DecidableEq

/-- Observable events of one `run_pipeline` invocation. -/
inductive Event where
  /-- the log line `logger.warning("PHI3_SERVICE_URL not set — skipping Phi-3 route")` -/
  | logWarnUnconfigured
  /-- the `client.post(PHI3_SERVICE_URL, json={...})` network call -/
  | httpPost (url system context message : String)
  /-- the log line `logger.error("Phi-3 call failed: %s", exc)` -/
  | logErrorPhi3 (exc : Phi3Exc)
  /-- the log line `logger.info("Route: phi-3-mini (words=%d)", word_count)` -/
  | logRoutePhi3 (words : Nat)
  /-- the log line `logger.info("Phi-3 fallback → gemini-flash (words=%d)", word_count)` -/
  | logFallback (words : Nat)
  /-- the log line `logger.info("Route: gemini-flash (words=%d)", word_count)` -/
  | logRouteFlash (words : Nat)
  /-- the log line `logger.info("Route: gemini-pro (words=%d)", word_count)` -/
  | logRoutePro (words : Nat)
  /-- the call `await agent.run_async(req.user_message)` on the agent built for
  `model` -/
  | agentRun (model : String)
  deriving Repr, DecidableEq

/-! ### Environment: the outside world seen by one routing invocation -/

/-- What the Phi-3 HTTP POST would produce, were it attempted and allowed
to finish: a transport-level exception, or an HTTP response with a status
code and an optional `"response"` JSON field (`none` models a payload
with no `"response"` key, for which `.get` returns `None`). -/
inductive HttpResult where
  | transportRaised
  | ok (status : Nat) (responseField : Option String)
  deriving Repr, DecidableEq

/-- The Phi-3 sidecar as seen by this process: the configured
`PHI3_SERVICE_URL` (empty means unconfigured), the seconds the POST takes
to complete, and its result when it completes. -/
structure Phi3Env where
  serviceUrl : String
  latency : Nat
  result : HttpResult
  deriving Repr, DecidableEq

/-- Outcome of `await agent.run_async(...)`: a result whose extracted
text is `text`, or a raised exception that propagates (there is no
try/except around the agent call in `run_pipeline`). -/
inductive AgentOutcome where
  | ok (text : String)
  | raises (msg : String)
  deriving Repr, DecidableEq

/-- One Gemini agent as seen by this process: how long `run_async` takes
and what it produces.  No timeout is passed to the agent call in the
source, so the caller waits out the full latency. -/
structure AgentEnv where
  latency : Nat
  outcome : AgentOutcome
  deriving Repr, DecidableEq

/-- The whole environment of one `run_pipeline` invocation. -/
structure Env where
  phi3 : Phi3Env
  flash : AgentEnv
  pro : AgentEnv
  deriving Repr, DecidableEq

/-! ### `_call_phi3` (`pipeline.py` lines 59-81) -/

/-- Result of `_call_phi3`: the returned `Optional[str]`, the events, and
the elapsed seconds. -/
structure CallResult where
  reply : Option String
  events : List Event
  elapsed : Nat
  deriving Repr, DecidableEq

/-- Function `_call_phi3(user_message, context, system_prompt)`.

* `PHI3_SERVICE_URL` unset → warn and return `None` with no network I/O;
* the POST exceeds the 8-second client timeout → the timeout exception is
  raised at the 8-second mark, caught, logged, `None` returned;
* transport exception → caught, logged, `None`;
* non-2xx status → `raise_for_status` raises `HTTPStatusError`, caught,
  logged, `None`;
* 2xx status → `resp.json().get("response")` is returned as-is (`None`
  when the field is missing, the field's text otherwise, even if empty). -/
def call_phi3 (env : Phi3Env) (user_message context system_prompt : String) :
    CallResult :=
  if env.serviceUrl = "" then
    { reply := none, events := [Event.logWarnUnconfigured], elapsed := 0 }
  else if PHI3_TIMEOUT < env.latency then
    { reply := none
      events := [Event.httpPost env.serviceUrl system_prompt context user_message,
                 Event.logErrorPhi3 Phi3Exc.timeoutExc]
      elapsed := PHI3_TIMEOUT }
  else
    match env.result with
    | HttpResult.transportRaised =>
      { reply := none
        events := [Event.httpPost env.serviceUrl system_prompt context user_message,
                   Event.logErrorPhi3 Phi3Exc.transportExc]
        elapsed := env.latency }
    | HttpResult.ok status field =>
      if 200 ≤ status ∧ status ≤ 299 then
        { reply := field
          events := [Event.httpPost env.serviceUrl system_prompt context user_message]
          elapsed := env.latency }
      else
        { reply := none
          events := [Event.httpPost env.serviceUrl system_prompt context user_message,
                     Event.logErrorPhi3 (Phi3Exc.httpStatusExc status)]
          elapsed := env.latency }

/-! ### `run_pipeline` (`pipeline.py` lines 106-143) -/

/-- Result of `run_pipeline`: the returned `PipelineResponse`, or the
exception that propagated out of the Gemini agent call; plus events and
elapsed seconds. -/
structure RunResult where
  result : Except String PipelineResponse
  events : List Event
  elapsed : Nat
  deriving Repr

/-- Python truthiness of the `Optional[str]` value `phi3_reply` tested by
`if phi3_reply:`: `None` and the empty string are falsy. -/
def truthyOptStr : Option String → Bool
  | none => false
  | some s => !(s == "")

/-- Lines 128-143 of `run_pipeline`: dispatch to Gemini Flash when
`word_count < FLASH_MAX_WORDS`, else Gemini Pro; run the chosen agent and
tag the response with the chosen `model_used`. -/
def run_gemini (env : Env) (wc : Nat) : RunResult :=
  if wc < FLASH_MAX_WORDS then
    match env.flash.outcome with
    | AgentOutcome.ok text =>
      { result := Except.ok { response := text, model_used := GEMINI_FLASH }
        events := [Event.logRouteFlash wc, Event.agentRun GEMINI_FLASH]
        elapsed := env.flash.latency }
    | AgentOutcome.raises msg =>
      { result := Except.error msg
        events := [Event.logRouteFlash wc, Event.agentRun GEMINI_FLASH]
        elapsed := env.flash.latency }
  else
    match env.pro.outcome with
    | AgentOutcome.ok text =>
      { result := Except.ok { response := text, model_used := GEMINI_PRO }
        events := [Event.logRoutePro wc, Event.agentRun GEMINI_PRO]
        elapsed := env.pro.latency }
    | AgentOutcome.raises msg =>
      { result := Except.error msg
        events := [Event.logRoutePro wc, Event.agentRun GEMINI_PRO]
        elapsed := env.pro.latency }

/-- Function `run_pipeline(req)`:

1. `word_count = len(req.user_message.split())`;
2. `system_prompt = _build_system_prompt(req.context)`;
3. if `word_count < PHI3_MAX_WORDS`, call `_call_phi3`; if the reply is
   truthy, return it labelled `"phi-3-mini"`; otherwise log the fallback
   and fall through;
4. dispatch to Flash (`word_count < FLASH_MAX_WORDS`) or Pro. -/
def run_pipeline (env : Env) (req : PipelineRequest) : RunResult :=
  let wc := word_count req.user_message
  let system_prompt := build_system_prompt req.context
  if wc < PHI3_MAX_WORDS then
    let c := call_phi3 env.phi3 req.user_message req.context system_prompt
    if truthyOptStr c.reply then
      { result := Except.ok { response := c.reply.getD "", model_used := "phi-3-mini" }
        events := c.events ++ [Event.logRoutePhi3 wc]
        elapsed := c.elapsed }
    else
      let g := run_gemini env wc
      { result := g.result
        events := c.events ++ [Event.logFallback wc] ++ g.events
        elapsed := c.elapsed + g.elapsed }
  else
    run_gemini env wc

/-! ### Tier classifier (spec §4.2; the branch structure of
`run_pipeline`, lines 120/129/133) -/

/-- The three backend tiers, in ascending cost order. -/
inductive Tier where
  | Light
  | Standard
  | Premium
  deriving Repr, DecidableEq

/-- The candidate tier for a word count, with exactly the threshold
structure of `run_pipeline`'s branches. -/
def classify (wc : Nat) : Tier :=
  if wc < PHI3_MAX_WORDS then Tier.Light
  else if wc < FLASH_MAX_WORDS then Tier.Standard
  else Tier.Premium

/-- Number of backend-agent invocations recorded in an event list. -/
def agentRunCount (evs : List Event) : Nat :=
  (evs.filter fun e =>
    match e with
    | Event.agentRun _ => true
    | _ => false).length

/-- Whether an event list records any network POST to the Phi-3 service. -/
def hasHttpPost (evs : List Event) : Bool :=
  evs.any fun e =>
    match e with
    | Event.httpPost _ _ _ _ => true
    | _ => false

/-! ### Substring occurrence (used to state delimiter absence) -/

/-- Whether the pattern (first argument) occurs at the head of the text. -/
def charsStartWith : List Char → List Char → Bool
  | [], _ => true
  | _ :: _, [] => false
  | p :: ps, c :: cs => p == c && charsStartWith ps cs

/-- Whether the pattern occurs anywhere in the text. -/
def charsContain (pat : List Char) : List Char → Bool
  | [] => charsStartWith pat []
  | c :: cs => charsStartWith pat (c :: cs) || charsContain pat cs

/-- Whether the string pat occurs as a contiguous substring of s. -/
def strContains (s pat : String) : Bool := charsContain pat.toList s.toList

end Velox

set_option maxRecDepth 8000

namespace Velox

/-! ## Shared lemmas -/

/-- No branch of the Phi-3 adapter ever invokes a Gemini agent. -/
theorem call_phi3_agentRunCount (env : Phi3Env) (u c sp : String) :
    agentRunCount (call_phi3 env u c sp).events = 0 := by
  obtain ⟨url, lat, res⟩ := env
  unfold call_phi3
  dsimp only
  split
  · rfl
  · split
    · rfl
    · cases res with
      | transportRaised => rfl
      | ok status field => dsimp only; split <;> rfl

/-- The Gemini dispatch block runs exactly one agent. -/
theorem run_gemini_agentRunCount (env : Env) (wc : Nat) :
    agentRunCount (run_gemini env wc).events = 1 := by
  unfold run_gemini
  split
  · cases env.flash.outcome <;> rfl
  · cases env.pro.outcome <;> rfl

/-- The Phi-3 adapter never takes longer than the 8-second client timeout. -/
theorem call_phi3_elapsed_le (env : Phi3Env) (u c sp : String) :
    (call_phi3 env u c sp).elapsed ≤ PHI3_TIMEOUT := by
  obtain ⟨url, lat, res⟩ := env
  unfold call_phi3
  dsimp only
  split
  · exact Nat.zero_le _
  · split
    · exact Nat.le_refl _
    · next hnlt =>
      cases res with
      | transportRaised => exact Nat.le_of_not_lt hnlt
      | ok status field => dsimp only; split <;> exact Nat.le_of_not_lt hnlt

/-- Event counts add over list concatenation. -/
theorem agentRunCount_append (a b : List Event) :
    agentRunCount (a ++ b) = agentRunCount a + agentRunCount b := by
  simp [agentRunCount, List.filter_append]

/-- When the selected Gemini agent raises, the Gemini dispatch block
propagates exactly that exception. -/
theorem run_gemini_raises (env : Env) (wc : Nat) (msg : String)
    (hfail : (if wc < FLASH_MAX_WORDS then env.flash.outcome else env.pro.outcome) =
      AgentOutcome.raises msg) :
    (run_gemini env wc).result = Except.error msg := by
  unfold run_gemini
  split
  · next hlt => rw [if_pos hlt] at hfail; rw [hfail]
  · next hge => rw [if_neg hge] at hfail; rw [hfail]

/-- A successful result of the Gemini dispatch block is labelled with the
model of the agent that produced its text. -/
theorem run_gemini_ok_cases (env : Env) (wc : Nat) (resp : PipelineResponse)
    (h : (run_gemini env wc).result = Except.ok resp) :
    (resp.model_used = GEMINI_FLASH ∧ env.flash.outcome = AgentOutcome.ok resp.response) ∨
    (resp.model_used = GEMINI_PRO ∧ env.pro.outcome = AgentOutcome.ok resp.response) := by
  unfold run_gemini at h
  split at h
  · cases hf : env.flash.outcome with
    | ok t =>
      rw [hf] at h
      dsimp only at h
      injection h with h
      subst h
      exact Or.inl ⟨rfl, rfl⟩
    | raises m =>
      rw [hf] at h
      exact absurd h (by simp)
  · cases hp : env.pro.outcome with
    | ok t =>
      rw [hp] at h
      dsimp only at h
      injection h with h
      subst h
      exact Or.inr ⟨rfl, rfl⟩
    | raises m =>
      rw [hp] at h
      exact absurd h (by simp)

/-- When the word count is Light-eligible and the Phi-3 reply is falsy
(None or empty), the pipeline's caller-visible outcome, trace tail and
extra elapsed time are exactly those of the Gemini dispatch block. -/
theorem run_pipeline_fallback (env : Env) (req : PipelineRequest)
    (hwc : word_count req.user_message < PHI3_MAX_WORDS)
    (hf : truthyOptStr (call_phi3 env.phi3 req.user_message req.context
        (build_system_prompt req.context)).reply = false) :
    (run_pipeline env req).result = (run_gemini env (word_count req.user_message)).result ∧
    (run_pipeline env req).events =
      (call_phi3 env.phi3 req.user_message req.context
        (build_system_prompt req.context)).events ++
      [Event.logFallback (word_count req.user_message)] ++
      (run_gemini env (word_count req.user_message)).events ∧
    (run_pipeline env req).elapsed =
      (call_phi3 env.phi3 req.user_message req.context
        (build_system_prompt req.context)).elapsed +
      (run_gemini env (word_count req.user_message)).elapsed := by
  refine ⟨?_, ?_, ?_⟩ <;> simp [run_pipeline, hwc, hf]

/-- Case analysis of every successful pipeline run: the reported
`model_used` names the backend whose text is returned, and a reply
labelled phi-3-mini is the (necessarily non-empty, by truthiness) text the
Phi-3 adapter returned. -/
theorem run_pipeline_ok_cases (env : Env) (req : PipelineRequest)
    (resp : PipelineResponse)
    (h : (run_pipeline env req).result = Except.ok resp) :
    (resp.model_used = "phi-3-mini" ∧ resp.response ≠ "" ∧
      (call_phi3 env.phi3 req.user_message req.context
        (build_system_prompt req.context)).reply = some resp.response) ∨
    (resp.model_used = GEMINI_FLASH ∧ env.flash.outcome = AgentOutcome.ok resp.response) ∨
    (resp.model_used = GEMINI_PRO ∧ env.pro.outcome = AgentOutcome.ok resp.response) := by
  by_cases hwc : word_count req.user_message < PHI3_MAX_WORDS
  · rcases hr : (call_phi3 env.phi3 req.user_message req.context
        (build_system_prompt req.context)).reply with _ | t
    · have hf : truthyOptStr (call_phi3 env.phi3 req.user_message req.context
          (build_system_prompt req.context)).reply = false := by
        rw [hr]; rfl
      rw [(run_pipeline_fallback env req hwc hf).1] at h
      exact Or.inr (run_gemini_ok_cases env _ resp h)
    · by_cases ht : t = ""
      · subst ht
        have hf : truthyOptStr (call_phi3 env.phi3 req.user_message req.context
            (build_system_prompt req.context)).reply = false := by
          rw [hr]; rfl
        rw [(run_pipeline_fallback env req hwc hf).1] at h
        exact Or.inr (run_gemini_ok_cases env _ resp h)
      · simp only [run_pipeline, hwc, if_true, hr, truthyOptStr] at h
        simp [ht] at h
        refine Or.inl ?_
        rw [← h]
        exact ⟨rfl, ht, rfl⟩
  · simp only [run_pipeline, hwc] at h
    simp at h
    exact Or.inr (run_gemini_ok_cases env _ resp h)

/-! ## C3 -/

/-- C3: tier classification is a deterministic total function of the
utterance word count, computed by splitting on whitespace: the candidate
tier is Light iff the word count is below 15, Standard iff it is at least
15 and below 50, and Premium iff it is at least 50 (so the boundary values
15 and 50 resolve to the higher tier). -/
theorem C3_classifier_table (s : String) :
    (classify (word_count s) = Tier.Light ↔ word_count s < 15) ∧
    (classify (word_count s) = Tier.Standard ↔
      15 ≤ word_count s ∧ word_count s < 50) ∧
    (classify (word_count s) = Tier.Premium ↔ 50 ≤ word_count s) := by
  unfold classify PHI3_MAX_WORDS FLASH_MAX_WORDS
  split_ifs with h1 h2 <;> refine ⟨?_, ?_, ?_⟩ <;> simp <;> omega

/-! ## C8 -/

/-- C8: the prompt composer is a pure function of the context: with empty
context it returns exactly the fixed persona policy, in which neither
knowledge-base delimiter occurs; with non-empty context it returns the
policy followed by the context enclosed in the knowledge-base delimiter
markers. -/
theorem C8_prompt_composer (context : String) (h : context ≠ "") :
    build_system_prompt "" = VELOX_BASE_PROMPT ∧
    strContains (build_system_prompt "") KB_OPEN = false ∧
    strContains (build_system_prompt "") KB_CLOSE = false ∧
    build_system_prompt context =
      VELOX_BASE_PROMPT ++ "\n\n" ++ KB_OPEN ++ "\n" ++ context ++ "\n" ++
        KB_CLOSE ++ "\n" := by
  refine ⟨rfl, by decide, by decide, ?_⟩
  unfold build_system_prompt
  simp [h]

/-- Witness for C8 at the concrete context "The store opens at 9am.". -/
theorem C8_prompt_composer_witness :
    build_system_prompt "" = VELOX_BASE_PROMPT ∧
    strContains (build_system_prompt "") KB_OPEN = false ∧
    strContains (build_system_prompt "") KB_CLOSE = false ∧
    build_system_prompt "The store opens at 9am." =
      VELOX_BASE_PROMPT ++ "\n\n" ++ KB_OPEN ++ "\n" ++ "The store opens at 9am." ++
        "\n" ++ KB_CLOSE ++ "\n" :=
  C8_prompt_composer "The store opens at 9am." (by decide)

/-! ## C9 -/

/-- C9: two requests that agree on the utterance and the context but differ
arbitrarily in the correlation identifiers (conversation id, call id, agent
id) produce identical routing results, events and timing: the identifiers
are never interpreted by the routing logic. -/
theorem C9_correlation_ids_opaque (env : Env) (req1 req2 : PipelineRequest)
    (hmsg : req1.user_message = req2.user_message)
    (hctx : req1.context = req2.context) :
    run_pipeline env req1 = run_pipeline env req2 := by
  unfold run_pipeline
  rw [hmsg, hctx]

/-- A concrete environment used to instantiate C9. -/
def envC9 : Env :=
  { phi3 := { serviceUrl := "http://slm:8001/generate", latency := 1,
              result := HttpResult.ok 200 (some "hello caller") }
    flash := { latency := 2, outcome := AgentOutcome.ok "flash text" }
    pro := { latency := 3, outcome := AgentOutcome.ok "pro text" } }

/-- Witness for C9: same utterance and context, different correlation ids. -/
theorem C9_correlation_ids_opaque_witness :
    run_pipeline envC9
      { user_message := "hello", context := "kb", agent_id := "a1",
        conversation_id := "c1", call_sid := "s1" } =
    run_pipeline envC9
      { user_message := "hello", context := "kb", agent_id := "a2",
        conversation_id := "c2", call_sid := "s2" } :=
  C9_correlation_ids_opaque envC9 _ _ rfl rfl

end Velox

namespace Velox

/-! ## C1 -/

/-- C1: for every Light-eligible request (word count below 15), when the
Phi-3 call fails for any reason (returns None, including the unconfigured
case), the pipeline falls back by re-applying the word-count table
without the Light branch — the Gemini dispatch block sends to Flash
("Standard") iff the word count is below 50 and to Pro ("Premium")
otherwise — and the Light failure is only logged: the caller-visible
outcome is exactly the Gemini dispatch outcome of the same word count,
with the fallback log line in the trace. -/
theorem C1_light_failure_only_logged (env : Env) (req : PipelineRequest)
    (hwc : word_count req.user_message < PHI3_MAX_WORDS)
    (hfail : (call_phi3 env.phi3 req.user_message req.context
        (build_system_prompt req.context)).reply = none) :
    (run_pipeline env req).result =
      (run_gemini env (word_count req.user_message)).result ∧
    Event.logFallback (word_count req.user_message) ∈
      (run_pipeline env req).events := by
  have hf : truthyOptStr (call_phi3 env.phi3 req.user_message req.context
      (build_system_prompt req.context)).reply = false := by rw [hfail]; rfl
  obtain ⟨h1, h2, h3⟩ := run_pipeline_fallback env req hwc hf
  refine ⟨h1, ?_⟩
  rw [h2]
  simp

/-- Environment for the C1 witness: Phi-3 unconfigured, Flash healthy. -/
def envC1 : Env :=
  { phi3 := { serviceUrl := "", latency := 0,
              result := HttpResult.ok 200 (some "unused") }
    flash := { latency := 1, outcome := AgentOutcome.ok "flash answer" }
    pro := { latency := 1, outcome := AgentOutcome.ok "pro answer" } }

/-- Request for the C1 witness (4 words, Light-eligible). -/
def reqC1 : PipelineRequest := { user_message := "is the office open" }

/-- Witness for C1: an unconfigured Phi-3 backend makes the 4-word request
fall through to the Gemini dispatch block. -/
theorem C1_light_failure_only_logged_witness :
    (run_pipeline envC1 reqC1).result =
      (run_gemini envC1 (word_count reqC1.user_message)).result ∧
    Event.logFallback (word_count reqC1.user_message) ∈
      (run_pipeline envC1 reqC1).events :=
  C1_light_failure_only_logged envC1 reqC1 (by decide) rfl

/-! ## C2 -/

/-- Environment for the C2 counterexample: the Phi-3 service is configured,
answers HTTP 200 within the timeout, and its payload carries the field
"response" with the empty string — at the adapter contract level this is a
Success whose text is empty. -/
def envC2 : Env :=
  { phi3 := { serviceUrl := "http://slm:8001/generate", latency := 1,
              result := HttpResult.ok 200 (some "") }
    flash := { latency := 2, outcome := AgentOutcome.ok "flash reply" }
    pro := { latency := 3, outcome := AgentOutcome.ok "pro reply" } }

/-- Request for the C2 counterexample (4 words, Light-eligible). -/
def reqC2 : PipelineRequest := { user_message := "what are your hours" }

/-- C2 is false as stated: the Light call succeeds (HTTP 200, the
"response" field is present, so the adapter returns its text, here empty)
yet run_pipeline does not return immediately with that text and the
phi-3-mini label — the Python truthiness test `if phi3_reply:` treats the
empty string like a failure and dispatches Gemini Flash instead. -/
theorem C2_counterexample :
    (call_phi3 envC2.phi3 reqC2.user_message reqC2.context
        (build_system_prompt reqC2.context)).reply = some "" ∧
    (run_pipeline envC2 reqC2).result =
      Except.ok { response := "flash reply", model_used := GEMINI_FLASH } ∧
    ({ response := "flash reply", model_used := GEMINI_FLASH } : PipelineResponse) ≠
      { response := "", model_used := "phi-3-mini" } :=
  ⟨rfl, rfl, by decide⟩

/-- C2 amended: for every Light-eligible request (word count below 15), if
the Phi-3 call returns Success with NON-EMPTY text, run_pipeline returns
immediately with that text and the tier label phi-3-mini, and no Gemini
agent is ever invoked. -/
theorem C2_light_success_returns_light (env : Env) (req : PipelineRequest)
    (s : String)
    (hwc : word_count req.user_message < PHI3_MAX_WORDS)
    (hreply : (call_phi3 env.phi3 req.user_message req.context
        (build_system_prompt req.context)).reply = some s)
    (hne : s ≠ "") :
    (run_pipeline env req).result =
      Except.ok { response := s, model_used := "phi-3-mini" } ∧
    agentRunCount (run_pipeline env req).events = 0 := by
  have hb : (s == "") = false := by simp [hne]
  constructor
  · simp [run_pipeline, hwc, hreply, truthyOptStr, hb]
  · have hev : (run_pipeline env req).events =
        (call_phi3 env.phi3 req.user_message req.context
          (build_system_prompt req.context)).events ++
        [Event.logRoutePhi3 (word_count req.user_message)] := by
      simp [run_pipeline, hwc, hreply, truthyOptStr, hb]
    rw [hev, agentRunCount_append, call_phi3_agentRunCount]
    rfl

/-- Environment for the C2 witness: Phi-3 succeeds with non-empty text. -/
def envC2w : Env :=
  { phi3 := { serviceUrl := "http://slm:8001/generate", latency := 1,
              result := HttpResult.ok 200 (some "We close at five.") }
    flash := { latency := 2, outcome := AgentOutcome.ok "flash reply" }
    pro := { latency := 3, outcome := AgentOutcome.ok "pro reply" } }

/-- Witness for the amended C2 at a concrete 4-word request. -/
theorem C2_light_success_returns_light_witness :
    (run_pipeline envC2w reqC2).result =
      Except.ok { response := "We close at five.", model_used := "phi-3-mini" } ∧
    agentRunCount (run_pipeline envC2w reqC2).events = 0 :=
  C2_light_success_returns_light envC2w reqC2 "We close at five."
    (by decide) rfl (by decide)

/-! ## C4 -/

/-- C4: whenever the request reaches the Gemini dispatch block (directly,
or by fall-through from a failed Light attempt) and the dispatched
Standard/Premium backend raises, the exception is surfaced verbatim as
the terminal outcome of run_pipeline, and exactly one backend agent was
invoked — no further tier is ever attempted after a Standard or Premium
failure. -/
theorem C4_hosted_failure_terminal (env : Env) (req : PipelineRequest)
    (msg : String)
    (hnophi : word_count req.user_message < PHI3_MAX_WORDS →
      truthyOptStr (call_phi3 env.phi3 req.user_message req.context
        (build_system_prompt req.context)).reply = false)
    (hfail : (if word_count req.user_message < FLASH_MAX_WORDS
        then env.flash.outcome else env.pro.outcome) = AgentOutcome.raises msg) :
    (run_pipeline env req).result = Except.error msg ∧
    agentRunCount (run_pipeline env req).events = 1 := by
  have hg1 := run_gemini_raises env (word_count req.user_message) msg hfail
  have hg2 := run_gemini_agentRunCount env (word_count req.user_message)
  by_cases hwc : word_count req.user_message < PHI3_MAX_WORDS
  · obtain ⟨h1, h2, h3⟩ := run_pipeline_fallback env req hwc (hnophi hwc)
    refine ⟨h1.trans hg1, ?_⟩
    rw [h2, agentRunCount_append, agentRunCount_append, call_phi3_agentRunCount,
      hg2]
    rfl
  · have hrp : run_pipeline env req = run_gemini env (word_count req.user_message) := by
      simp [run_pipeline, hwc]
    rw [hrp]
    exact ⟨hg1, hg2⟩

/-- Environment for the C4 witness: Flash raises, Pro is healthy. -/
def envC4 : Env :=
  { phi3 := { serviceUrl := "", latency := 0, result := HttpResult.transportRaised }
    flash := { latency := 2, outcome := AgentOutcome.raises "boom" }
    pro := { latency := 3, outcome := AgentOutcome.ok "pro reply" } }

/-- Request for the C4 witness (16 words, Standard tier). -/
def reqC4 : PipelineRequest :=
  { user_message :=
      "please summarise the latest maintenance report for the turbine and include all open action items today" }

/-- Witness for C4: a 16-word request whose Flash agent raises ends with
that exact error after exactly one agent invocation. -/
theorem C4_hosted_failure_terminal_witness :
    (run_pipeline envC4 reqC4).result = Except.error "boom" ∧
    agentRunCount (run_pipeline envC4 reqC4).events = 1 :=
  C4_hosted_failure_terminal envC4 reqC4 "boom" (by decide) (by decide)

/-! ## C5 -/

/-- C5: the model_used field of every successful run_pipeline result names
the backend that actually produced the returned text — "phi-3-mini" only
when the Phi-3 adapter returned exactly that text, "gemini-2.5-flash"
only when the Flash agent produced it, "gemini-2.5-pro" only when the Pro
agent produced it — hence never the originally classified tier after a
fallback. -/
theorem C5_model_used_reflects_producer (env : Env) (req : PipelineRequest)
    (resp : PipelineResponse)
    (h : (run_pipeline env req).result = Except.ok resp) :
    (resp.model_used = "phi-3-mini" ∧
      (call_phi3 env.phi3 req.user_message req.context
        (build_system_prompt req.context)).reply = some resp.response) ∨
    (resp.model_used = GEMINI_FLASH ∧
      env.flash.outcome = AgentOutcome.ok resp.response) ∨
    (resp.model_used = GEMINI_PRO ∧
      env.pro.outcome = AgentOutcome.ok resp.response) := by
  rcases run_pipeline_ok_cases env req resp h with ⟨h1, _, h3⟩ | h | h
  · exact Or.inl ⟨h1, h3⟩
  · exact Or.inr (Or.inl h)
  · exact Or.inr (Or.inr h)

/-- Environment for the C5 witness: all three backends healthy. -/
def envC5 : Env :=
  { phi3 := { serviceUrl := "http://slm:8001/generate", latency := 1,
              result := HttpResult.ok 200 (some "We close at five.") }
    flash := { latency := 2, outcome := AgentOutcome.ok "flash text" }
    pro := { latency := 3, outcome := AgentOutcome.ok "pro text" } }

/-- Request for the C5 witness (4 words, Light tier). -/
def reqC5 : PipelineRequest := { user_message := "when do you close" }

/-- Witness for C5 at a concrete successful Phi-3 routing. -/
theorem C5_model_used_reflects_producer_witness :
    (({ response := "We close at five.", model_used := "phi-3-mini" } :
        PipelineResponse).model_used = "phi-3-mini" ∧
      (call_phi3 envC5.phi3 reqC5.user_message reqC5.context
        (build_system_prompt reqC5.context)).reply =
        some ({ response := "We close at five.", model_used := "phi-3-mini" } :
          PipelineResponse).response) ∨
    (({ response := "We close at five.", model_used := "phi-3-mini" } :
        PipelineResponse).model_used = GEMINI_FLASH ∧
      envC5.flash.outcome = AgentOutcome.ok
        ({ response := "We close at five.", model_used := "phi-3-mini" } :
          PipelineResponse).response) ∨
    (({ response := "We close at five.", model_used := "phi-3-mini" } :
        PipelineResponse).model_used = GEMINI_PRO ∧
      envC5.pro.outcome = AgentOutcome.ok
        ({ response := "We close at five.", model_used := "phi-3-mini" } :
          PipelineResponse).response) :=
  C5_model_used_reflects_producer envC5 reqC5
    { response := "We close at five.", model_used := "phi-3-mini" } rfl

/-! ## C10 -/

/-- C10 (implicit): if the Phi-3 call completes successfully but yields
empty text, or a payload without a "response" field (so the adapter
returns None), run_pipeline treats this like a failure and falls back to
the Standard/Premium path; and a successful result labelled phi-3-mini
never carries empty text. -/
theorem C10_no_empty_phi3_reply (env : Env) (req : PipelineRequest) :
    (word_count req.user_message < PHI3_MAX_WORDS →
      ((call_phi3 env.phi3 req.user_message req.context
          (build_system_prompt req.context)).reply = some "" ∨
        (call_phi3 env.phi3 req.user_message req.context
          (build_system_prompt req.context)).reply = none) →
      (run_pipeline env req).result =
        (run_gemini env (word_count req.user_message)).result) ∧
    (∀ resp, (run_pipeline env req).result = Except.ok resp →
      resp.model_used = "phi-3-mini" → resp.response ≠ "") := by
  constructor
  · intro hwc hempty
    have hf : truthyOptStr (call_phi3 env.phi3 req.user_message req.context
        (build_system_prompt req.context)).reply = false := by
      rcases hempty with he | he <;> rw [he] <;> rfl
    exact (run_pipeline_fallback env req hwc hf).1
  · intro resp h hm
    rcases run_pipeline_ok_cases env req resp h with ⟨_, h2, _⟩ | ⟨h1, _⟩ | ⟨h1, _⟩
    · exact h2
    · rw [hm] at h1; exact absurd h1 (by decide)
    · rw [hm] at h1; exact absurd h1 (by decide)

/-- Environment for the C10 witness: HTTP 200 whose JSON payload has no
"response" field, so `.get` yields None. -/
def envC10 : Env :=
  { phi3 := { serviceUrl := "http://slm:8001/generate", latency := 1,
              result := HttpResult.ok 200 none }
    flash := { latency := 1, outcome := AgentOutcome.ok "flash fills in" }
    pro := { latency := 1, outcome := AgentOutcome.ok "pro fills in" } }

/-- Request for the C10 witness (3 words, Light tier). -/
def reqC10 : PipelineRequest := { user_message := "any openings tomorrow" }

/-- Witness for C10: a 200 response without a "response" field falls back
to the Gemini dispatch block. -/
theorem C10_no_empty_phi3_reply_witness :
    (run_pipeline envC10 reqC10).result =
      (run_gemini envC10 (word_count reqC10.user_message)).result :=
  (C10_no_empty_phi3_reply envC10 reqC10).1 (by decide) (Or.inr rfl)

end Velox

namespace Velox

/-! ## C6 -/

/-- An unconfigured Phi-3 environment (empty PHI3_SERVICE_URL). -/
def phi3Unconfigured : Phi3Env :=
  { serviceUrl := "", latency := 0, result := HttpResult.ok 200 (some "ignored") }

/-- A configured Phi-3 environment whose POST raises a transport error. -/
def phi3Transport : Phi3Env :=
  { serviceUrl := "http://slm:8001/generate", latency := 1,
    result := HttpResult.transportRaised }

/-- C6 is false as stated: the Light-backend call outcome (the value
_call_phi3 returns to the router) does not carry a failure reason at all —
an unconfigured backend and a transport error both return the identical
outcome None, so the four reasons are coerced into one untyped outcome. -/
theorem C6_counterexample :
    (call_phi3 phi3Unconfigured "hi there" "" (build_system_prompt "")).reply =
      (call_phi3 phi3Transport "hi there" "" (build_system_prompt "")).reply ∧
    (call_phi3 phi3Unconfigured "hi there" "" (build_system_prompt "")).reply =
      none :=
  ⟨rfl, rfl⟩

/-- C6 amended: every Phi-3 failure returns the single untyped outcome
None; the causes (unconfigured, timeout, transport error, upstream non-2xx
error) are distinguished only in the emitted log records, and a missing
endpoint configuration yields None immediately, in zero elapsed time and
without attempting any network I/O. -/
theorem C6_failures_collapse_to_none (env : Phi3Env) (u c sp : String) :
    (env.serviceUrl = "" →
      call_phi3 env u c sp =
        { reply := none, events := [Event.logWarnUnconfigured], elapsed := 0 } ∧
      hasHttpPost (call_phi3 env u c sp).events = false) ∧
    (env.serviceUrl ≠ "" → PHI3_TIMEOUT < env.latency →
      (call_phi3 env u c sp).reply = none ∧
      Event.logErrorPhi3 Phi3Exc.timeoutExc ∈ (call_phi3 env u c sp).events) ∧
    (env.serviceUrl ≠ "" → env.latency ≤ PHI3_TIMEOUT →
      env.result = HttpResult.transportRaised →
      (call_phi3 env u c sp).reply = none ∧
      Event.logErrorPhi3 Phi3Exc.transportExc ∈ (call_phi3 env u c sp).events) ∧
    (∀ status field, env.serviceUrl ≠ "" → env.latency ≤ PHI3_TIMEOUT →
      env.result = HttpResult.ok status field →
      ¬(200 ≤ status ∧ status ≤ 299) →
      (call_phi3 env u c sp).reply = none ∧
      Event.logErrorPhi3 (Phi3Exc.httpStatusExc status) ∈
        (call_phi3 env u c sp).events) := by
  refine ⟨?_, ?_, ?_, ?_⟩
  · intro h
    constructor
    · simp [call_phi3, h]
    · simp [call_phi3, h, hasHttpPost]
  · intro h hl
    constructor <;> simp [call_phi3, h, hl]
  · intro h hl hres
    have hnl : ¬ PHI3_TIMEOUT < env.latency := Nat.not_lt.mpr hl
    constructor <;> simp [call_phi3, h, hnl, hres]
  · intro status field h hl hres hstat
    have hnl : ¬ PHI3_TIMEOUT < env.latency := Nat.not_lt.mpr hl
    constructor <;> simp [call_phi3, h, hnl, hres, hstat]

/-- Witness for the amended C6 at the concrete unconfigured environment. -/
theorem C6_failures_collapse_to_none_witness :
    call_phi3 phi3Unconfigured "hi there" "" (build_system_prompt "") =
      { reply := none, events := [Event.logWarnUnconfigured], elapsed := 0 } ∧
    hasHttpPost
      (call_phi3 phi3Unconfigured "hi there" "" (build_system_prompt "")).events =
      false :=
  (C6_failures_collapse_to_none phi3Unconfigured "hi there" ""
    (build_system_prompt "")).1 rfl

/-! ## C7 -/

/-- Request for the C7 counterexample (16 words, Standard tier). -/
def reqC7 : PipelineRequest :=
  { user_message :=
      "could you compare the two service plans and explain which one fits a small retail business" }

/-- Environment family for the C7 counterexample: the Flash agent answers
successfully after `lat` seconds. -/
def envC7 (lat : Nat) : Env :=
  { phi3 := { serviceUrl := "", latency := 0, result := HttpResult.transportRaised }
    flash := { latency := lat, outcome := AgentOutcome.ok "slow flash reply" }
    pro := { latency := 0, outcome := AgentOutcome.ok "pro reply" } }

/-- C7 is false as stated: the Standard (and likewise Premium) agent
invocation is awaited with no per-call timeout, so the time run_pipeline
spends on this fixed 16-word request is not bounded by any constant — for
every candidate bound there is a Flash latency exceeding it (while the
only explicit timeout in the routing code is the Light adapter's 8
seconds). -/
theorem C7_counterexample :
    ¬ ∃ T : Nat, ∀ lat : Nat, (run_pipeline (envC7 lat) reqC7).elapsed ≤ T := by
  rintro ⟨T, hT⟩
  have hwc : word_count reqC7.user_message = 16 := by decide
  have he : (run_pipeline (envC7 (T + 1)) reqC7).elapsed = T + 1 := by
    simp [run_pipeline, hwc, run_gemini, envC7, PHI3_MAX_WORDS, FLASH_MAX_WORDS]
  have hle := hT (T + 1)
  omega

/-- C7 amended: the Light invocation alone is bounded by the explicit
8-second client timeout — _call_phi3 never takes longer than 8 seconds; a
Phi-3 service that needs more than 8 seconds is abandoned at the 8-second
mark with outcome None (the timeout is only logged) and the Light-eligible
request proceeds to the Standard/Premium fallback instead of blocking; the
Gemini agent invocations carry no explicit per-call timeout and are
awaited to completion. -/
theorem C7_light_timeout_bounded (env : Env) (req : PipelineRequest)
    (hwc : word_count req.user_message < PHI3_MAX_WORDS)
    (hurl : env.phi3.serviceUrl ≠ "")
    (hslow : PHI3_TIMEOUT < env.phi3.latency) :
    (call_phi3 env.phi3 req.user_message req.context
      (build_system_prompt req.context)).elapsed = PHI3_TIMEOUT ∧
    (call_phi3 env.phi3 req.user_message req.context
      (build_system_prompt req.context)).reply = none ∧
    (∀ e : Phi3Env, ∀ u c sp : String,
       (call_phi3 e u c sp).elapsed ≤ PHI3_TIMEOUT) ∧
    (run_pipeline env req).result =
      (run_gemini env (word_count req.user_message)).result ∧
    (run_pipeline env req).elapsed =
      PHI3_TIMEOUT + (run_gemini env (word_count req.user_message)).elapsed := by
  have hcall : call_phi3 env.phi3 req.user_message req.context
      (build_system_prompt req.context) =
      { reply := none
        events := [Event.httpPost env.phi3.serviceUrl
            (build_system_prompt req.context) req.context req.user_message,
          Event.logErrorPhi3 Phi3Exc.timeoutExc]
        elapsed := PHI3_TIMEOUT } := by
    simp [call_phi3, hurl, hslow]
  have hf : truthyOptStr (call_phi3 env.phi3 req.user_message req.context
      (build_system_prompt req.context)).reply = false := by rw [hcall]; rfl
  obtain ⟨h1, h2, h3⟩ := run_pipeline_fallback env req hwc hf
  refine ⟨by rw [hcall], by rw [hcall], ?_, h1, ?_⟩
  · intro e u c sp
    exact call_phi3_elapsed_le e u c sp
  · rw [h3, hcall]

/-- Environment for the C7 witness: a configured Phi-3 service that would
need 20 seconds, healthy Gemini agents. -/
def envC7w : Env :=
  { phi3 := { serviceUrl := "http://slm:8001/generate", latency := 20,
              result := HttpResult.ok 200 (some "never arrives") }
    flash := { latency := 2, outcome := AgentOutcome.ok "flash covers" }
    pro := { latency := 2, outcome := AgentOutcome.ok "pro covers" } }

/-- Request for the C7 witness (4 words, Light tier). -/
def reqC7w : PipelineRequest := { user_message := "are you open today" }

/-- Witness for the amended C7 at the concrete slow-Phi-3 environment. -/
theorem C7_light_timeout_bounded_witness :
    (call_phi3 envC7w.phi3 reqC7w.user_message reqC7w.context
      (build_system_prompt reqC7w.context)).elapsed = PHI3_TIMEOUT ∧
    (call_phi3 envC7w.phi3 reqC7w.user_message reqC7w.context
      (build_system_prompt reqC7w.context)).reply = none ∧
    (∀ e : Phi3Env, ∀ u c sp : String,
       (call_phi3 e u c sp).elapsed ≤ PHI3_TIMEOUT) ∧
    (run_pipeline envC7w reqC7w).result =
      (run_gemini envC7w (word_count reqC7w.user_message)).result ∧
    (run_pipeline envC7w reqC7w).elapsed =
      PHI3_TIMEOUT + (run_gemini envC7w (word_count reqC7w.user_message)).elapsed :=
  C7_light_timeout_bounded envC7w reqC7w (by decide) (by decide) (by decide)

end Velox
